import Mathlib

/-!
Verification of the alos-to-insar notebook pipeline against its
natural-language specification.  The notebooks' configuration handling,
path derivation, pipeline cells and stage-out packaging are shallowly
embedded as executable Lean definitions, translated from the sources in
`notebook_pges/rslc_to_insar.ipynb`, `notebook_pges/rslc_to_gcov.ipynb`
(which also holds the `alos_to_rslc` notebook) and the YAML templates.
-/

/-- A YAML document as loaded by `yaml.safe_load`: a tree of mappings,
sequences and scalars.  Float scalars are kept as their literal text
because the notebooks never compute with them, only copy them. -/
inductive Yaml where
  | nullV : Yaml
  | boolV : Bool → Yaml
  | intV : Int → Yaml
  | floatV : String → Yaml
  | strV : String → Yaml
  | listV : List Yaml → Yaml
  | mapV : List (String × Yaml) → Yaml

/-- Lookup of a key in a Python dict, modelled as an association list
that preserves insertion order (as Python 3.7+ dicts do). -/
def assocGet : List (String × Yaml) → String → Option Yaml
  | [], _ => none
  | (k', v') :: rest, k => if k' = k then some v' else assocGet rest k

/-- Python dict item assignment `d[k] = v`: replaces the value in place
when the key exists (keeping its position), appends otherwise. -/
def assocSet : List (String × Yaml) → String → Yaml → List (String × Yaml)
  | [], k, v => [(k, v)]
  | (k', v') :: rest, k, v =>
    if k' = k then (k, v) :: rest else (k', v') :: assocSet rest k v

/-- Chained subscript read `y[k1][k2]...`; `none` models the `KeyError`
or `TypeError` Python raises when a key is absent or a node is not a
dict. -/
def Yaml.getPath : List String → Yaml → Option Yaml
  | [], y => some y
  | k :: rest, .mapV es =>
    match assocGet es k with
    | some c => Yaml.getPath rest c
    | none => none
  | _ :: _, _ => none

/-- Chained subscript write `y[k1][k2]...[kn] = v`: every intermediate
key must already exist and be a mapping (else `KeyError`/`TypeError`,
modelled as `none`); the final assignment inserts or replaces. -/
def Yaml.setPath : List String → Yaml → Yaml → Option Yaml
  | [], _, _ => none
  | [k], .mapV es, v => some (.mapV (assocSet es k v))
  | k :: k2 :: rest, .mapV es, v =>
    match assocGet es k with
    | some child =>
      (Yaml.setPath (k2 :: rest) child v).map (fun c => .mapV (assocSet es k c))
    | none => none
  | _ :: _, _, _ => none

/-- Projects a YAML sequence of string scalars to its strings. -/
def Yaml.strList : Yaml → Option (List String)
  | .listV xs =>
    xs.foldr
      (fun x acc =>
        match x, acc with
        | .strV s, some l => some (s :: l)
        | _, _ => none)
      (some [])
  | _ => none

/-- Projects a YAML string scalar. -/
def Yaml.asStr : Yaml → Option String
  | .strV s => some s
  | _ => none

/-- Splits a character list on a separator character; like Python
`str.split(sep)`, the empty input gives one empty piece. -/
def splitListOn (sep : Char) : List Char → List (List Char)
  | [] => [[]]
  | c :: rest =>
    let r := splitListOn sep rest
    if c = sep then [] :: r
    else
      match r with
      | [] => [[c]]
      | h :: t => (c :: h) :: t

/-- Rejoins pieces with a separator character. -/
def joinListWith (sep : Char) : List (List Char) → List Char
  | [] => []
  | [x] => x
  | x :: y :: rest => x ++ sep :: joinListWith sep (y :: rest)

/-- POSIX `os.path.join` for two components as the notebooks use it: an
absolute second component discards the first, otherwise a single slash
separates them. -/
def ospJoin (a b : String) : String :=
  let bAbsolute := match b.toList with | '/' :: _ => true | _ => false
  let aSlashEnd := match a.toList.getLast? with | some '/' => true | _ => false
  if bAbsolute then b
  else if a = "" then b
  else if aSlashEnd then a ++ b
  else a ++ "/" ++ b

/-- POSIX `os.path.basename`: the part after the last slash. -/
def ospBasename (p : String) : String :=
  String.mk ((splitListOn '/' p.toList).getLastD [])

/-- Extension stripping on a basename: drop the suffix from the last
dot, except when every character before that dot is itself a dot (then
there is no extension), as in `os.path.splitext`. -/
def splitextBase (base : List Char) : List Char :=
  let parts := splitListOn '.' base
  if parts.length ≤ 1 then base
  else if parts.dropLast.all List.isEmpty then base
  else joinListWith '.' parts.dropLast

/-- First component of `os.path.splitext`: the path with the extension
of its basename removed. -/
def ospSplitextFst (p : String) : String :=
  let segs := splitListOn '/' p.toList
  String.mk (joinListWith '/' (segs.dropLast ++ [splitextBase (segs.getLastD [])]))

/-- Skips through the first `://` of a character list, returning what
follows, or `none` when the separator is absent. -/
def dropThroughSchemeSep : List Char → Option (List Char)
  | [] => none
  | ':' :: '/' :: '/' :: rest => some rest
  | _ :: rest => dropThroughSchemeSep rest

/-- Path component of `urllib.parse.urlparse` for the URLs the notebooks
handle: everything from the first slash after the `scheme://netloc`
part, or the input itself when no scheme separator is present. -/
def urlparsePath (url : String) : String :=
  match dropThroughSchemeSep url.toList with
  | none => url
  | some rest => String.mk (rest.dropWhile (fun c => c ≠ '/'))

/-- The focus.yaml runconfig template of the repository (the default
`FOCUS_YML` loaded by the notebooks), transcribed mapping for mapping. -/
def focusTemplate : Yaml := .mapV [
  ("runconfig", .mapV [
    ("groups", .mapV [
      ("input_file_group", .mapV [
        ("input_file_path", .listV [.strV "165426740.h5"]),
        ("qa_input_file", .strV "./slc.h5")]),
      ("dynamic_ancillary_file_group", .mapV [
        ("dem_file", .nullV),
        ("dem_file_description", .nullV),
        ("orbit", .nullV),
        ("pointing", .nullV),
        ("external_calibration", .nullV),
        ("internal_calibration", .nullV),
        ("antenna_pattern", .nullV),
        ("corner_reflector_file", .nullV),
        ("polarimetric_calibration", .nullV),
        ("bookend_calibration", .nullV),
        ("waveform", .nullV)]),
      ("product_path_group", .mapV [
        ("product_path", .strV "./RSLC"),
        ("scratch_path", .strV "./RSLC"),
        ("sas_output_file", .strV "RSLC/165426740.h5"),
        ("sas_config_file", .strV "rslc_focus_165426740.yaml"),
        ("qa_output_dir", .strV "./qa")]),
      ("primary_executable", .mapV [
        ("product_type", .strV "RSLC")]),
      ("geometry", .mapV [
        ("relative_orbit_number", .intV 1),
        ("frame_number", .intV 150)]),
      ("worker", .mapV [
        ("gpu_enabled", .boolV true),
        ("gpu_id", .intV 0)]),
      ("processing", .mapV [
        ("output_grid", .mapV [
          ("start_time", .nullV),
          ("end_time", .nullV),
          ("start_range", .nullV),
          ("end_range", .nullV),
          ("output_prf", .nullV),
          ("time_snap_interval", .floatV "1.0")]),
        ("range_window", .mapV [
          ("kind", .strV "Cosine"),
          ("shape", .floatV "0.5")]),
        ("azimuth_window", .mapV [
          ("kind", .strV "Kaiser"),
          ("shape", .floatV "0.0")]),
        ("radio_frequency_interference", .mapV [
          ("detection_enabled", .boolV true),
          ("mitigation_enabled", .boolV false),
          ("mitigation_algorithm", .strV "ST-EVD"),
          ("cpi_length", .intV 32),
          ("num_range_blocks", .intV 1),
          ("max_emitters", .intV 16),
          ("detection_threshold", .floatV "1.0")]),
        ("range_common_band_filter", .mapV [
          ("attenuation", .floatV "40.0"),
          ("width", .floatV "0.15")]),
        ("doppler", .mapV [
          ("azimuth_boresight_deg", .floatV "0.0"),
          ("interp_method", .strV "bilinear"),
          ("spacing", .mapV [
            ("range", .floatV "2000.0"),
            ("azimuth", .floatV "1.0")]),
          ("rdr2geo", .mapV [
            ("threshold", .floatV "1e-06"),
            ("maxiter", .intV 25),
            ("extraiter", .intV 15)])]),
        ("rangecomp", .mapV [
          ("mode", .strV "valid"),
          ("block_size", .mapV [
            ("range", .intV 0),
            ("azimuth", .intV 1024)])]),
        ("azcomp", .mapV [
          ("block_size", .mapV [
            ("range", .intV 0),
            ("azimuth", .intV 1024)]),
          ("azimuth_resolution", .floatV "5.5"),
          ("kernel", .mapV [
            ("type", .strV "Knab"),
            ("halfwidth", .intV 4),
            ("approx_oversample", .floatV "1.7"),
            ("fit", .strV "Table"),
            ("fit_order", .intV 2048)]),
          ("rdr2geo", .mapV [
            ("threshold", .floatV "1e-06"),
            ("maxiter", .intV 100),
            ("extraiter", .intV 15)]),
          ("geo2rdr", .mapV [
            ("threshold", .floatV "1e-06"),
            ("maxiter", .intV 100),
            ("delta_range", .floatV "10.0")])]),
        ("dry_troposphere_model", .strV "nodelay"),
        ("dem", .mapV [
          ("reference_height", .floatV "0.0"),
          ("interp_method", .strV "biquintic")]),
        ("nominal_antenna_size", .mapV [
          ("range", .floatV "3.1"),
          ("azimuth", .floatV "8.9")]),
        ("encoding_scale_factor", .floatV "1.0"),
        ("delete_tempfiles", .boolV true),
        ("debug_dump_height", .boolV false),
        ("is_enabled", .mapV [
          ("presum_blu", .boolV true),
          ("rangecomp", .boolV true),
          ("eap", .boolV false),
          ("range_cor", .boolV false),
          ("azcomp", .boolV true),
          ("rfi_removal", .boolV false)])]),
      ("qa", .mapV [
        ("workflows", .mapV [
          ("validate", .boolV false),
          ("qa_reports", .boolV false),
          ("absolute_radiometric_calibration", .boolV false),
          ("noise_estimation", .boolV false),
          ("point_target_analyzer", .boolV false)]),
        ("qa_reports", .mapV [
          ("power_image", .mapV [
            ("linear_units", .boolV true),
            ("nlooks_freqa", .nullV),
            ("nlooks_freqb", .nullV),
            ("num_mpix", .floatV "4.0"),
            ("middle_percentile", .floatV "90.0"),
            ("gamma", .floatV "0.5"),
            ("tile_shape", .listV [.intV 1024, .intV 1024])]),
          ("histogram", .mapV [
            ("decimation_ratio", .listV [.intV 10, .intV 10]),
            ("pow_histogram_bin_edges_range", .listV [.floatV "-80.0", .floatV "20.0"]),
            ("phs_in_radians", .boolV true),
            ("tile_shape", .listV [.intV 1024, .intV (-1)])])]),
        ("absolute_radiometric_calibration", .mapV [
          ("freq", .nullV),
          ("pol", .nullV),
          ("nchip", .intV 64),
          ("upsample", .intV 32),
          ("peak_find_domain", .strV "time"),
          ("nfit", .intV 5),
          ("power_method", .strV "box"),
          ("pthresh", .floatV "3.0")]),
        ("noise_estimation", .mapV [
          ("freq_group", .nullV),
          ("pol", .nullV),
          ("rng_start", .nullV),
          ("rng_stop", .nullV),
          ("algorithm", .strV "avg"),
          ("cpi", .intV 2)]),
        ("point_target_analyzer", .mapV [
          ("freq_group", .nullV),
          ("pol", .nullV),
          ("predict_null", .boolV false),
          ("num_sidelobes", .intV 10),
          ("nov", .intV 32),
          ("chipsize", .intV 64),
          ("shift_domain", .strV "time")])]),
      ("archive", .mapV [
        ("quicklook", .boolV true)]),
      ("qaqc", .mapV [
        ("report", .strV "foo")]),
      ("profiler", .mapV [])])])]

/-- Result of one call to `write_focus_config`: the value of the
module-level `FOCUS_YML` after the call (the function assigns into the
global dict) and the files the call itself opened for writing and
dumped, as `(path, yaml.dump content)` pairs. -/
structure FocusWriteResult where
  template : Yaml
  fileWrites : List (String × Yaml)

/-- The function `write_focus_config(target_path, yml_path)` of
`rslc_to_insar.ipynb`: assigns the input path (wrapped in a one-element
list), the derived `sas_output_file` and the config path into the global
`FOCUS_YML`, then dumps the dict to `yml_path` within the same call.
`none` models the `KeyError` Python would raise were an intermediate
group absent from the template; no other failure mode exists in the
code. -/
def write_focus_config (FOCUS_YML : Yaml) (target_path yml_path : String) :
    Option FocusWriteResult := do
  let y1 ← Yaml.setPath ["runconfig", "groups", "input_file_group", "input_file_path"]
    FOCUS_YML (.listV [.strV target_path])
  let y2 ← Yaml.setPath ["runconfig", "groups", "product_path_group", "sas_output_file"]
    y1 (.strV (ospJoin "RSLC" (ospBasename target_path)))
  let y3 ← Yaml.setPath ["runconfig", "groups", "product_path_group", "sas_config_file"]
    y2 (.strV yml_path)
  some { template := y3, fileWrites := [(yml_path, y3)] }

/-- Sanity check: the input path override lands as a one-element list. -/
theorem sanity_focus_input_path :
    ((write_focus_config focusTemplate "raw.h5" "cfg.yaml").map
      (fun r => Yaml.getPath ["runconfig", "groups", "input_file_group", "input_file_path"] r.template))
    = some (some (.listV [.strV "raw.h5"])) := rfl

/-- Sanity check: the config path override lands verbatim. -/
theorem sanity_focus_config_path (p : String) :
    ((write_focus_config focusTemplate "raw.h5" p).map
      (fun r => Yaml.getPath ["runconfig", "groups", "product_path_group", "sas_config_file"] r.template))
    = some (some (.strV p)) := rfl

/-- C2: materializing the focus template with input file path `raw.h5`
yields a document whose
`runconfig.groups.input_file_group.input_file_path` is the one-element
list `["raw.h5"]` (the scalar is wrapped in a list) and whose
`runconfig.groups.product_path_group.sas_config_file` is the provided
config file path. -/
theorem C2_focus_materialize_scenario (yml_path : String) :
    ((write_focus_config focusTemplate "raw.h5" yml_path).map
      (fun r =>
        (Yaml.getPath ["runconfig", "groups", "input_file_group", "input_file_path"] r.template,
         Yaml.getPath ["runconfig", "groups", "product_path_group", "sas_config_file"] r.template)))
    = some (some (.listV [.strV "raw.h5"]), some (.strV yml_path)) := rfl

/-- C1 counterexample: with the input artifact path missing (the empty
override), `write_focus_config` does not fail with any
`ConfigValidationError` — no validation exists in the code — but
succeeds and produces a config whose `input_file_path` holds the
degenerate value `[""]`. -/
theorem C1_counterexample :
    (write_focus_config focusTemplate "" "cfg.yaml").isSome = true
    ∧ ((write_focus_config focusTemplate "" "cfg.yaml").map
        (fun r => Yaml.getPath ["runconfig", "groups", "input_file_group", "input_file_path"] r.template))
      = some (some (.listV [.strV ""])) := ⟨rfl, rfl⟩

/-- C1 amended: config materialization performs no validation at all:
for every override pair, including a missing (empty) input artifact
path, `write_focus_config` succeeds and writes the override value
verbatim into the config; no `ConfigValidationError` is ever raised (the
code defines no such error). -/
theorem C1_no_validation_ever (target_path yml_path : String) :
    ((write_focus_config focusTemplate target_path yml_path).map
      (fun r => Yaml.getPath ["runconfig", "groups", "input_file_group", "input_file_path"] r.template))
    = some (some (.listV [.strV target_path])) := rfl

/-- C7 counterexample: `write_focus_config` is not a pure transform.
After the call with target `x.h5`, the module-level template's
`input_file_path` reads `["x.h5"]` — which the untouched template does
not hold, so the input template was mutated in place — and the call's
set of file writes is non-empty: the YAML dump to disk happens inside
the same call, not as a separate step. -/
theorem C7_counterexample :
    ((write_focus_config focusTemplate "x.h5" "cfg.yaml").map
      (fun r =>
        ((Yaml.getPath ["runconfig", "groups", "input_file_group", "input_file_path"] r.template).bind Yaml.strList,
         r.fileWrites.isEmpty)))
    = some (some ["x.h5"], false)
    ∧ (Yaml.getPath ["runconfig", "groups", "input_file_group", "input_file_path"] focusTemplate).bind Yaml.strList
      ≠ some ["x.h5"] := ⟨rfl, by decide⟩

/-- C7 amended: materialization mutates the module-level template and
persists it to disk within the same call: for every override pair the
call returns the mutated template together with exactly one file write,
namely the dump of that mutated template to the provided config path. -/
theorem C7_mutation_and_write_in_one_call (target_path yml_path : String) :
    ∃ r, write_focus_config focusTemplate target_path yml_path = some r
      ∧ r.fileWrites = [(yml_path, r.template)] := ⟨_, rfl, rfl⟩

/-- Errors the Python runtime raises in the embedded notebook cells. -/
inductive PyError where
  | typeError : String → PyError
  | nameError : String → PyError
deriving DecidableEq

/-- Outcome of the `asf_search` interaction inside `download_alos_data`:
either the archive download and extraction succeed, yielding the
extracted directories, or `auth_with_creds` raises
`ASFAuthenticationError` with a message. -/
inductive AsfOutcome where
  | ok : List String → AsfOutcome
  | authFailure : String → AsfOutcome

/-- The function `download_alos_data(urls)` of `rslc_to_insar.ipynb`.
On success it returns the extracted directories.  An
`ASFAuthenticationError` is caught by the `except` clause, which only
prints the message; the function then falls off its end and returns
`None` — the exception is not re-raised and no other error channel
exists. -/
def download_alos_data (outcome : AsfOutcome) : Option (List String) :=
  match outcome with
  | .ok dirs => some dirs
  | .authFailure _ => none

/-- The download-and-focus portion of the pipeline cell of
`rslc_to_insar.ipynb`: it binds `extract_dirs = download_alos_data(...)`
and immediately iterates `enumerate(extract_dirs)`.  When the download
returned `None` the iteration raises an unrelated `TypeError`; the cell
has no handler, so that is the error which surfaces. -/
def pipelineDownloadStep (outcome : AsfOutcome) : Except PyError (List String) :=
  match download_alos_data outcome with
  | some dirs => .ok dirs
  | none => .error (.typeError "NoneType object is not iterable")

/-- C3 counterexample: an authentication failure during download is
silently swallowed: `download_alos_data` catches the
`ASFAuthenticationError`, prints, and returns `None`, and what the
pipeline then surfaces is a `TypeError` from iterating `None` — an error
that carries neither the authentication message nor any stage name. -/
theorem C3_counterexample :
    download_alos_data (.authFailure "Invalid credentials") = none
    ∧ pipelineDownloadStep (.authFailure "Invalid credentials")
      = .error (.typeError "NoneType object is not iterable") := ⟨rfl, rfl⟩

/-- C3 amended: an authentication failure during download never aborts
the run with the originating error: for every failure message,
`download_alos_data` swallows the exception and returns `None`, and the
pipeline cell subsequently fails with a `TypeError` from iterating
`None`, which does not name the download stage or the credential
problem. -/
theorem C3_auth_error_swallowed (msg : String) :
    download_alos_data (.authFailure msg) = none
    ∧ pipelineDownloadStep (.authFailure msg)
      = .error (.typeError "NoneType object is not iterable") := ⟨rfl, rfl⟩

/-- The run-scoped directory constants of `rslc_to_gcov.ipynb` (and of
`alos_to_rslc.ipynb`, which defines the same four): all four are joined
onto the notebook's working directory; no run identifier enters their
derivation. -/
def gcovRunDirs (WORKING_DIR : String) : List String :=
  [ospJoin WORKING_DIR "downloads",
   ospJoin WORKING_DIR "alos_data",
   ospJoin WORKING_DIR "output",
   ospJoin WORKING_DIR "product_path"]

/-- Path derivation of the gcov run cell of `rslc_to_gcov.ipynb`:
`target_path` (the downloaded input), `yml_path` (the generated
runconfig) and `output_f` (the GCOV output artifact), computed from the
working directory and the `data_link` parameter exactly as the cell
does. -/
def resolve_gcov_paths (WORKING_DIR data_link : String) : String × String × String :=
  let DOWNLOAD_DIR := ospJoin WORKING_DIR "downloads"
  let OUTPUT_DIR := ospJoin WORKING_DIR "output"
  let PRODUCT_DIR := ospJoin WORKING_DIR "product_path"
  let target_path := ospJoin DOWNLOAD_DIR (ospBasename (urlparsePath data_link))
  let yml_path := ospJoin OUTPUT_DIR "gcov_final.yaml"
  let output_name := ospBasename (ospSplitextFst target_path)
  let output_f := ospJoin PRODUCT_DIR (output_name ++ "_GCOV.h5")
  (target_path, yml_path, output_f)

/-- Sanity check of the path derivation on the default data link. -/
theorem sanity_resolve_gcov_paths :
    resolve_gcov_paths "/w" "s3://nisar-st-data-ondemand/ALOS-1-data/RSLC/ALPSRP267700710-L1.0.h5"
    = ("/w/downloads/ALPSRP267700710-L1.0.h5",
       "/w/output/gcov_final.yaml",
       "/w/product_path/ALPSRP267700710-L1.0_GCOV.h5") := rfl

/-- Observable actions of the gcov run cell, in program order. -/
inductive GcovAction where
  | downloadS3 : String → String → GcovAction
  | skipDownload : String → GcovAction
  | downloadDem : String → GcovAction
  | stageDem : GcovAction
  | writeGcovConfig : String → GcovAction
  | runGcov : String → GcovAction
  | printSuccess : GcovAction
deriving DecidableEq

/-- The gcov run cell of `rslc_to_gcov.ipynb` as the sequence of actions
it performs, given the working directory, the notebook parameters and
the set of files present when the cell starts.  The cell downloads the
input only when the file is absent, stages or downloads a DEM, writes
the runconfig, invokes `gcov.py`, and unconditionally prints the success
banner; it contains no artifact verification and no failure state. -/
def gcovRunCell (WORKING_DIR data_link dem_s3_url : String) (fs : List String) :
    List GcovAction :=
  let paths := resolve_gcov_paths WORKING_DIR data_link
  let target_path := paths.1
  let yml_path := paths.2.1
  let dl :=
    if fs.contains target_path then [GcovAction.skipDownload target_path]
    else [GcovAction.downloadS3 data_link target_path]
  let dem :=
    if dem_s3_url ≠ "" then [GcovAction.downloadDem dem_s3_url]
    else [GcovAction.stageDem]
  dl ++ dem ++ [.writeGcovConfig yml_path, .runGcov yml_path, .printSuccess]

/-- C4 counterexample: in a run where the upstream input artifact is
absent (empty file system) the gcov cell does not transition to any
FAILED state: it attempts a download, still invokes the external tool,
and ends by printing the success banner without verifying that the
output artifact exists (the file system is unchanged by the trace
model; the cell reads no file after the invocation). -/
theorem C4_counterexample :
    gcovRunCell "/w" "s3://bucket/RSLC/a.h5" "" []
    = [.downloadS3 "s3://bucket/RSLC/a.h5" "/w/downloads/a.h5",
       .stageDem,
       .writeGcovConfig "/w/output/gcov_final.yaml",
       .runGcov "/w/output/gcov_final.yaml",
       .printSuccess] := rfl

/-- C4 amended: the orchestrating cell performs no artifact checks at
all: for every initial file system (with the upstream artifact present
or absent) and every parameter choice, the external tool is invoked and
the cell ends with the success banner; no FAILED transition exists in
the code. -/
theorem C4_no_artifact_checks (WORKING_DIR data_link dem_s3_url : String)
    (fs : List String) :
    [GcovAction.writeGcovConfig (resolve_gcov_paths WORKING_DIR data_link).2.1,
     GcovAction.runGcov (resolve_gcov_paths WORKING_DIR data_link).2.1,
     GcovAction.printSuccess] <:+ gcovRunCell WORKING_DIR data_link dem_s3_url fs := by
  unfold gcovRunCell
  exact List.suffix_append _ _

/-- Paths of one pipeline run, given the run's identifier and the
working directory the notebook executes in.  No line of the sources
reads any run identifier: the four directory constants are joined onto
the working directory only, so the identifier argument is never
consumed. -/
def runPaths (_run_id : String) (WORKING_DIR : String) : List String :=
  gcovRunDirs WORKING_DIR

/-- C5 counterexample: two runs with the distinct run identifiers
`run-A` and `run-B` but the same working directory produce identical —
hence maximally overlapping — download, extract, output and product
paths, because no path derivation in the code consumes a run
identifier. -/
theorem C5_counterexample :
    runPaths "run-A" "/data/work" = runPaths "run-B" "/data/work"
    ∧ "run-A" ≠ "run-B"
    ∧ runPaths "run-A" "/data/work"
      = ["/data/work/downloads", "/data/work/alos_data",
         "/data/work/output", "/data/work/product_path"] :=
  ⟨rfl, by decide, rfl⟩

/-- C5 amended: the notebooks namespace their paths under the working
directory alone, not under a run identifier: for all pairs of run
identifiers the derived path set is the same whenever the working
directory is the same, so collision avoidance rests entirely on runs
receiving distinct working directories. -/
theorem C5_paths_ignore_run_id (run_id1 run_id2 WORKING_DIR : String) :
    runPaths run_id1 WORKING_DIR = runPaths run_id2 WORKING_DIR := rfl

/-- C6: stage path resolution is deterministic: two calls of the gcov
cell's path derivation with identical working directory and data link
return identical target, runconfig and output paths.  The derivation is
pure string computation with no clock, randomness or ambient state. -/
theorem C6_stage_locator_deterministic (wd1 wd2 link1 link2 : String)
    (hw : wd1 = wd2) (hl : link1 = link2) :
    resolve_gcov_paths wd1 link1 = resolve_gcov_paths wd2 link2 := by
  subst hw; subst hl; rfl

/-- Witness for C6 at a concrete input. -/
theorem C6_witness :
    resolve_gcov_paths "/w" "s3://bucket/RSLC/a.h5"
    = resolve_gcov_paths "/w" "s3://bucket/RSLC/a.h5" :=
  C6_stage_locator_deterministic "/w" "/w" "s3://bucket/RSLC/a.h5" "s3://bucket/RSLC/a.h5" rfl rfl

/-- Modelled from the spec: `isce3_config.GCOV_FORMAT`, the stage-out
naming format string, lives in the `isce3_config` module which is not
among the sources; the notebook documents the scheme with the example
name `NISAR_L2_PR_GCOV_000_000_Z_000_0000_HH00_Z_20240131T000000_20250131T000000_0A1B2C_A_F_Z_000`,
whose only parameterised fields are the polarization and the (start)
timestamp the gcov stage-out cell passes in. -/
def GCOV_FORMAT (polarization timestamp : String) : String :=
  "NISAR_L2_PR_GCOV_000_000_Z_000_0000_" ++ polarization ++ "_Z_" ++ timestamp
    ++ "_20250131T000000_0A1B2C_A_F_Z_000"

/-- Word characters in the sense of the regex class `\w`. -/
def isWordChar (c : Char) : Bool :=
  c.isAlpha || c.isDigit || c = '_'

/-- Consumes an exact literal prefix. -/
def eatLit : List Char → List Char → Option (List Char)
  | [], cs => some cs
  | l :: ls, c :: cs => if c = l then eatLit ls cs else none
  | _ :: _, [] => none

/-- Consumes exactly `n` characters satisfying `p`. -/
def eatCount (p : Char → Bool) : Nat → List Char → Option (List Char)
  | 0, cs => some cs
  | n + 1, c :: cs => if p c then eatCount p n cs else none
  | _ + 1, [] => none

/-- Runs a sequence of consumers over a character list, each handing its
remainder to the next. -/
def runEaters : List (List Char → Option (List Char)) → List Char → Option (List Char)
  | [], cs => some cs
  | e :: es, cs =>
    match e cs with
    | some rest => runEaters es rest
    | none => none

/-- The GCOV stage-out regex documented in `rslc_to_gcov.ipynb`,
translated group by group: the literal `NISAR_L2_PR_GCOV_`, then cycle
number `\\d{3}`, relative orbit number `\\d{3}`, direction `\\w`, track
frame `\\d{3}`, radar processing mode `\\d{4}`, polarization `\\w{4}`,
source `\\w`, radar start and stop datetimes `\\d{8}T\\d{6}`, composite
release id `\\w{6}`, fidelity `\\w`, coverage indicator `[F|P]`,
processing center `\\w` and product counter `\\d{3}`, all separated by
underscores and anchored at the end. -/
def gcovRegexParts : List (List Char → Option (List Char)) :=
  [eatLit ("NISAR_L2_PR_GCOV_".toList),
   eatCount Char.isDigit 3, eatLit ['_'],
   eatCount Char.isDigit 3, eatLit ['_'],
   eatCount isWordChar 1, eatLit ['_'],
   eatCount Char.isDigit 3, eatLit ['_'],
   eatCount Char.isDigit 4, eatLit ['_'],
   eatCount isWordChar 4, eatLit ['_'],
   eatCount isWordChar 1, eatLit ['_'],
   eatCount Char.isDigit 8, eatLit ['T'], eatCount Char.isDigit 6, eatLit ['_'],
   eatCount Char.isDigit 8, eatLit ['T'], eatCount Char.isDigit 6, eatLit ['_'],
   eatCount isWordChar 6, eatLit ['_'],
   eatCount isWordChar 1, eatLit ['_'],
   eatCount (fun c => c = 'F' || c = 'P') 1, eatLit ['_'],
   eatCount isWordChar 1, eatLit ['_'],
   eatCount Char.isDigit 3]

/-- Decides whether a string fully matches the GCOV stage-out regex. -/
def matchesGcovRegex (s : String) : Bool :=
  match runEaters gcovRegexParts s.toList with
  | some rest => rest.isEmpty
  | none => false

/-- Sanity check: the documented example name matches the regex. -/
theorem sanity_gcov_regex_example : matchesGcovRegex
    "NISAR_L2_PR_GCOV_000_000_Z_000_0000_HH00_Z_20240131T000000_20250131T000000_0A1B2C_A_F_Z_000"
    = true := rfl

/-- The gcov stage-out cell of `rslc_to_gcov.ipynb`: it fixes the
polarization to `HH`, formats the regex-shaped directory name from the
timestamp parameter, and fills the directory with (i) whatever
`*-output.ipynb`, `*.txt` and `*.json` files the working directory holds
(the cell's three `cp` lines, parameterised here by that file list),
(ii) the moved runconfig `gcov_final.yaml` and the moved result artifact,
and (iii) the two JSON sidecars it writes.  Returns the directory name
and the list of file names inside it. -/
def gcovStageOut (timestamp : String) (output_f_base : String)
    (workingDirCopies : List String) : String × List String :=
  let polarization := "HH"
  let regex_name := GCOV_FORMAT (polarization ++ "00") timestamp
  (regex_name,
   workingDirCopies
     ++ ["gcov_final.yaml", output_f_base,
         regex_name ++ ".met.json", regex_name ++ ".dataset.json"])

/-- C8 counterexample: for product type GCOV, polarization HH and
timestamp `20240131T012345`, the stage-out directory name does match the
fixed regex, but even with nothing to copy from the working directory
the bundle holds four files, not three: besides the two JSON sidecars
and the result artifact it also contains the moved runconfig
`gcov_final.yaml`, which is none of the three expected files. -/
theorem C8_counterexample :
    (gcovStageOut "20240131T012345" "ALPSRP022930670-L1.0_GCOV.h5" []).1
      = "NISAR_L2_PR_GCOV_000_000_Z_000_0000_HH00_Z_20240131T012345_20250131T000000_0A1B2C_A_F_Z_000"
    ∧ matchesGcovRegex (gcovStageOut "20240131T012345" "ALPSRP022930670-L1.0_GCOV.h5" []).1 = true
    ∧ (gcovStageOut "20240131T012345" "ALPSRP022930670-L1.0_GCOV.h5" []).2
      = ["gcov_final.yaml",
         "ALPSRP022930670-L1.0_GCOV.h5",
         "NISAR_L2_PR_GCOV_000_000_Z_000_0000_HH00_Z_20240131T012345_20250131T000000_0A1B2C_A_F_Z_000.met.json",
         "NISAR_L2_PR_GCOV_000_000_Z_000_0000_HH00_Z_20240131T012345_20250131T000000_0A1B2C_A_F_Z_000.dataset.json"]
    ∧ ((gcovStageOut "20240131T012345" "ALPSRP022930670-L1.0_GCOV.h5" []).2.length = 4
        ∧ "gcov_final.yaml"
          ∉ ["ALPSRP022930670-L1.0_GCOV.h5",
             "NISAR_L2_PR_GCOV_000_000_Z_000_0000_HH00_Z_20240131T012345_20250131T000000_0A1B2C_A_F_Z_000.met.json",
             "NISAR_L2_PR_GCOV_000_000_Z_000_0000_HH00_Z_20240131T012345_20250131T000000_0A1B2C_A_F_Z_000.dataset.json"]) :=
  ⟨rfl, rfl, rfl, rfl, by decide⟩

/-- C8 amended: for product type GCOV, polarization HH and timestamp
`20240131T012345`, the stage-out directory name matches the fixed GCOV
regex, and the bundle contains the two JSON sidecars and the result
artifact plus the moved runconfig `gcov_final.yaml` and whatever
notebook outputs, text and JSON files were copied from the working
directory. -/
theorem C8_stage_out_name_and_contents (workingDirCopies : List String) :
    matchesGcovRegex (gcovStageOut "20240131T012345" "ALPSRP022930670-L1.0_GCOV.h5" workingDirCopies).1 = true
    ∧ (gcovStageOut "20240131T012345" "ALPSRP022930670-L1.0_GCOV.h5" workingDirCopies).2
      = workingDirCopies
        ++ ["gcov_final.yaml",
            "ALPSRP022930670-L1.0_GCOV.h5",
            "NISAR_L2_PR_GCOV_000_000_Z_000_0000_HH00_Z_20240131T012345_20250131T000000_0A1B2C_A_F_Z_000.met.json",
            "NISAR_L2_PR_GCOV_000_000_Z_000_0000_HH00_Z_20240131T012345_20250131T000000_0A1B2C_A_F_Z_000.dataset.json"] :=
  ⟨rfl, rfl⟩

/-- Global names bound at module level in `rslc_to_insar.ipynb` by its
parameters cell and its functions cell, in definition order.  The names
`f1` and `f2` are not among them: no cell ever assigns them (the only
`f` bindings in the notebook are locals of `download_alos_data` and the
`with open(...) as f` handles). -/
def insarNotebookGlobals : List String :=
  ["username", "password", "rslc_1", "rslc_2", "dem", "key", "secret", "token",
   "region", "_time_limit", "_soft_time_limit", "_disk_usage",
   "_submission_type", "_label", "os", "yaml", "asf", "boto3", "aws_uploader",
   "WORKING_DIR", "HOME_DIR", "DOWNLOAD_DIR", "EXTRACT_DIR", "OUTPUT_DIR",
   "FOCUS_YML", "INSAR_YML", "download_alos_data", "write_focus_config",
   "write_insar_config"]

/-- Parameter list of `def write_insar_config(target_path, yml_path)` in
`rslc_to_insar.ipynb`. -/
def write_insar_config_params : List String := ["target_path", "yml_path"]

/-- A Python positional call: an argument count different from the
parameter count raises `TypeError` at the call, before the body runs;
otherwise the body's outcome stands.  The result carries the file
writes the executed body performed. -/
def pyCall (params : List String) (args : List String)
    (body : Except PyError (List (String × Yaml))) :
    Except PyError (List (String × Yaml)) :=
  if args.length = params.length then body
  else .error (.typeError "positional argument count mismatch")

/-- The body of `write_insar_config`: its first statement evaluates the
name `f1` and its second the name `f2`, neither of which is a parameter
or a module-level binding, so name resolution decides everything;
whatever the rest of the body (the template assignments and the YAML
dump) would do is reached only if both names resolve. -/
def write_insar_config_body (globalNames : List String)
    (restOfBody : Except PyError (List (String × Yaml))) :
    Except PyError (List (String × Yaml)) :=
  if globalNames.contains "f1" = false then .error (.nameError "f1")
  else if globalNames.contains "f2" = false then .error (.nameError "f2")
  else restOfBody

/-- The call `write_insar_config(rslc_1, rslc_2, insar_run_config)` of
the pipeline cell of `rslc_to_insar.ipynb`: three positional arguments
against a two-parameter function. -/
def pipeline_write_insar_call (rslc_1 rslc_2 insar_run_config : String)
    (restOfBody : Except PyError (List (String × Yaml))) :
    Except PyError (List (String × Yaml)) :=
  pyCall write_insar_config_params [rslc_1, rslc_2, insar_run_config]
    (write_insar_config_body insarNotebookGlobals restOfBody)

/-- C9: every execution of the INSAR configuration step as the pipeline
cell invokes it raises a `TypeError` before any config file is written:
the call passes three arguments to the two-parameter
`write_insar_config`, so whatever the body would have done, the result
is the arity `TypeError` and the write list never materialises; and the
two names the body reads, `f1` and `f2`, are bound neither as parameters
nor as notebook globals. -/
theorem C9_insar_config_arity_error (rslc_1 rslc_2 insar_run_config : String)
    (restOfBody : Except PyError (List (String × Yaml))) :
    pipeline_write_insar_call rslc_1 rslc_2 insar_run_config restOfBody
      = .error (.typeError "positional argument count mismatch")
    ∧ insarNotebookGlobals.contains "f1" = false
    ∧ insarNotebookGlobals.contains "f2" = false
    ∧ write_insar_config_params.contains "f1" = false
    ∧ write_insar_config_params.contains "f2" = false :=
  ⟨rfl, rfl, rfl, rfl, rfl⟩

/-- The values a papermill-substituted notebook parameter can carry when
it reaches the boolean-preprocessing cell: a bool, an int, or a string. -/
inductive PyVal where
  | vBool : Bool → PyVal
  | vInt : Int → PyVal
  | vStr : String → PyVal

/-- Accumulates a decimal value over digits, allowing a single
underscore between digits as Python integer literals do. -/
def digitsValAux (acc : Nat) : List Char → Option Nat
  | [] => some acc
  | c :: cs =>
    if c.isDigit then digitsValAux (acc * 10 + (c.toNat - 48)) cs
    else if c = '_' then
      match cs with
      | d :: rest =>
        if d.isDigit then digitsValAux (acc * 10 + (d.toNat - 48)) rest else none
      | [] => none
    else none

/-- Python `int(s)` on a string: surrounding whitespace is stripped, an
optional sign precedes a non-empty digit sequence (single underscores
may separate digits); anything else raises `ValueError`, modelled as
`none`. -/
def pyIntOfString (s : String) : Option Int :=
  let ws := fun (c : Char) => c = ' ' || c = '\t' || c = '\n' || c = '\r'
  let cs := (((s.toList.dropWhile ws).reverse.dropWhile ws)).reverse
  match cs with
  | '+' :: d :: rest =>
    if d.isDigit then (digitsValAux (d.toNat - 48) rest).map Int.ofNat else none
  | '-' :: d :: rest =>
    if d.isDigit then (digitsValAux (d.toNat - 48) rest).map (fun n => -(Int.ofNat n))
    else none
  | d :: rest =>
    if d.isDigit then (digitsValAux (d.toNat - 48) rest).map Int.ofNat else none
  | [] => none

/-- The boolean-parameter preprocessing cell shared by
`rslc_to_gcov.ipynb` and `alos_to_rslc.ipynb`: a bool is left unchanged;
otherwise `gpu_enabled = int(gpu_enabled) > 0` is assigned; when `int()`
raises `ValueError` (a string that is not an integer literal) the
`except ValueError` block evaluates `instance(gpu_enabled, str)` — and
`instance` is an undefined name, so a `NameError` escapes the cell and
the string fallback never assigns a value. -/
def coerce_gpu_enabled : PyVal → Except PyError Bool
  | .vBool b => .ok b
  | .vInt n => .ok (decide (0 < n))
  | .vStr s =>
    match pyIntOfString s with
    | some n => .ok (decide (0 < n))
    | none => .error (.nameError "instance")

/-- C10: the `gpu_enabled` preprocessing is total only on bool and
int-convertible inputs: a bool passes through unchanged; an int yields
`True` exactly when it is positive; a string that `int()` accepts yields
`True` exactly when its value is positive; and every other string —
`"true"` included — makes the cell raise an unhandled `NameError` on
the undefined name `instance`, so the fallback never assigns. -/
theorem C10_gpu_enabled_coercion :
    (∀ b, coerce_gpu_enabled (.vBool b) = .ok b)
    ∧ (∀ n : Int, coerce_gpu_enabled (.vInt n) = .ok (decide (0 < n)))
    ∧ (∀ s n, pyIntOfString s = some n →
        coerce_gpu_enabled (.vStr s) = .ok (decide (0 < n)))
    ∧ (∀ s, pyIntOfString s = none →
        coerce_gpu_enabled (.vStr s) = .error (.nameError "instance"))
    ∧ coerce_gpu_enabled (.vStr "true") = .error (.nameError "instance") := by
  refine ⟨fun _ => rfl, fun _ => rfl, fun s n h => ?_, fun s h => ?_, rfl⟩
  · simp [coerce_gpu_enabled, h]
  · simp [coerce_gpu_enabled, h]

/-- Witness for C10 at concrete inputs: the string `"2"` is
int-convertible and coerces to `True`; the string `"true"` is not and
raises the `NameError`. -/
theorem C10_witness :
    coerce_gpu_enabled (.vStr "2") = .ok true
    ∧ coerce_gpu_enabled (.vStr "true") = .error (.nameError "instance") :=
  ⟨C10_gpu_enabled_coercion.2.2.1 "2" 2 rfl,
   C10_gpu_enabled_coercion.2.2.2.1 "true" rfl⟩
